import Mathlib

/-!
Verification of the self-role bot (src/discord_role_bot_slash_select.py).

The embedding below translates the pure decision logic of the bot into Lean:
role ids are `Nat`, Python lists become `List Nat`, the Python `set` built in
`RoleSelect.callback` becomes a `List Nat` queried by membership, and the
interactions with the Discord transport (guild/channel/role caches, message
fetches, the assignability check) are parameters of the translated functions.
-/

namespace RoleBot

/-! ## Reconciliation (RoleSelect.callback, lines 178-181)

```
selected_ids = set(int(v) for v in self.values if v.isdigit())
to_add = [r for r in roles if r.id in selected_ids and r not in member.roles]
to_remove = [r for r in roles if r.id not in selected_ids and r in member.roles]
```

`roles` is the menu's resolved candidate list, `member.roles` the user's
current roles, `selected_ids` the user's submitted selection. -/

/-- `to_add` from `RoleSelect.callback`: candidates that are selected and not
currently held. Arguments: resolved candidate roles, the member's current
roles, the selected ids. -/
def to_add (roles current selected : List Nat) : List Nat :=
  roles.filter (fun r => decide (r ∈ selected) && !decide (r ∈ current))

/-- `to_remove` from `RoleSelect.callback`: candidates that are not selected
and currently held. -/
def to_remove (roles current selected : List Nat) : List Nat :=
  roles.filter (fun r => !decide (r ∈ selected) && decide (r ∈ current))

/-- The member's roles after `member.add_roles(*to_add)` followed by
`member.remove_roles(*to_remove)`: as a set, `(current ∪ add) \ rem`. -/
def applyChanges (current add rem : List Nat) : List Nat :=
  (current ++ add).filter (fun r => !decide (r ∈ rem))

/-- C1: with `selected ⊆ candidate`, the callback computes
`to_add = (selected ∩ candidate) \ current` and
`to_remove = (candidate \ selected) ∩ current`; the two are disjoint, both
are subsets of the candidate list, and applying them to `current` yields
exactly `(current \ candidate) ∪ (selected ∩ candidate)`. -/
theorem reconcile_correct (current candidate selected : List Nat)
    (hsel : ∀ x ∈ selected, x ∈ candidate) :
    (∀ x, x ∈ to_add candidate current selected ↔
      (x ∈ selected ∧ x ∈ candidate) ∧ x ∉ current) ∧
    (∀ x, x ∈ to_remove candidate current selected ↔
      (x ∈ candidate ∧ x ∉ selected) ∧ x ∈ current) ∧
    (∀ x, ¬ (x ∈ to_add candidate current selected ∧
      x ∈ to_remove candidate current selected)) ∧
    (∀ x ∈ to_add candidate current selected, x ∈ candidate) ∧
    (∀ x ∈ to_remove candidate current selected, x ∈ candidate) ∧
    (∀ x, x ∈ applyChanges current (to_add candidate current selected)
        (to_remove candidate current selected) ↔
      (x ∈ current ∧ x ∉ candidate) ∨ (x ∈ selected ∧ x ∈ candidate)) := by
  simp only [to_add, to_remove, applyChanges, List.mem_filter, List.mem_append,
    Bool.and_eq_true, Bool.not_eq_true', decide_eq_true_eq,
    decide_eq_false_iff_not]
  refine ⟨fun x => ?_, fun x => ?_, fun x => ?_, fun x => ?_, fun x => ?_,
    fun x => ?_⟩ <;> by_cases hc : x ∈ candidate <;>
    by_cases hs : x ∈ selected <;> by_cases hu : x ∈ current <;>
    simp_all

/-- Witness for C1 on the spec's own scenario: candidate = {1,2,3},
current = {1}, selected = {2,3}. -/
theorem reconcile_correct_witness :
    (∀ x ∈ [2, 3], x ∈ [1, 2, 3]) ∧
    ((∀ x, x ∈ to_add [1, 2, 3] [1] [2, 3] ↔
      (x ∈ [2, 3] ∧ x ∈ [1, 2, 3]) ∧ x ∉ [1]) ∧
    (∀ x, x ∈ to_remove [1, 2, 3] [1] [2, 3] ↔
      (x ∈ [1, 2, 3] ∧ x ∉ [2, 3]) ∧ x ∈ [1]) ∧
    (∀ x, ¬ (x ∈ to_add [1, 2, 3] [1] [2, 3] ∧
      x ∈ to_remove [1, 2, 3] [1] [2, 3])) ∧
    (∀ x ∈ to_add [1, 2, 3] [1] [2, 3], x ∈ [1, 2, 3]) ∧
    (∀ x ∈ to_remove [1, 2, 3] [1] [2, 3], x ∈ [1, 2, 3]) ∧
    (∀ x, x ∈ applyChanges [1] (to_add [1, 2, 3] [1] [2, 3])
        (to_remove [1, 2, 3] [1] [2, 3]) ↔
      (x ∈ [1] ∧ x ∉ [1, 2, 3]) ∨ (x ∈ [2, 3] ∧ x ∈ [1, 2, 3]))) :=
  ⟨by decide, reconcile_correct [1] [1, 2, 3] [2, 3] (by decide)⟩

/-- C4: reconciliation is idempotent. After applying the first
`to_add`/`to_remove` to `current`, a second run with the same selection
computes empty deltas. -/
theorem reconcile_idempotent (current candidate selected : List Nat)
    (hsel : ∀ x ∈ selected, x ∈ candidate) :
    to_add candidate (applyChanges current (to_add candidate current selected)
      (to_remove candidate current selected)) selected = [] ∧
    to_remove candidate (applyChanges current (to_add candidate current selected)
      (to_remove candidate current selected)) selected = [] := by
  constructor <;>
  · simp only [to_add, to_remove]
    rw [List.filter_eq_nil_iff]
    intro x hx
    simp only [applyChanges, to_add, to_remove, List.mem_filter,
      List.mem_append, Bool.and_eq_true, Bool.not_eq_true', decide_eq_true_eq,
      decide_eq_false_iff_not, Bool.not_eq_true]
    by_cases hs : x ∈ selected <;> by_cases hu : x ∈ current <;> simp_all

/-- Witness for C4 on the same concrete scenario. -/
theorem reconcile_idempotent_witness :
    (∀ x ∈ [2, 3], x ∈ [1, 2, 3]) ∧
    (to_add [1, 2, 3] (applyChanges [1] (to_add [1, 2, 3] [1] [2, 3])
      (to_remove [1, 2, 3] [1] [2, 3])) [2, 3] = [] ∧
    to_remove [1, 2, 3] (applyChanges [1] (to_add [1, 2, 3] [1] [2, 3])
      (to_remove [1, 2, 3] [1] [2, 3])) [2, 3] = []) :=
  ⟨by decide, reconcile_idempotent [1] [1, 2, 3] [2, 3] (by decide)⟩

/-! ## Config store (load_data / save_data, lines 28-38)

The persisted document is `{"join_role_id": id|null, "role_messages": [...]}`
with each role message entry holding guild_id, channel_id, message_id,
role_ids, uid and title. -/

/-- One entry of `data["role_messages"]`. -/
structure MenuEntry where
  guild_id : Nat
  channel_id : Nat
  message_id : Nat
  role_ids : List Nat
  uid : String
  title : String
deriving DecidableEq

/-- The whole persisted document. -/
structure Config where
  join_role_id : Option Nat
  role_messages : List MenuEntry
deriving DecidableEq

/-- The default document `{"join_role_id": None, "role_messages": []}`
returned by load_data when the file is absent or unreadable. -/
def emptyConfig : Config := { join_role_id := none, role_messages := [] }

/-- `load_data`: `fileExists` is `DATA_FILE.exists()`; `parsed` is the outcome
of `json.loads(DATA_FILE.read_text())`, with `.error` covering any exception
(which the code logs and swallows). -/
def load_data (fileExists : Bool) (parsed : Except String Config) : Config :=
  if fileExists then
    match parsed with
    | .ok c => c
    | .error _ => emptyConfig
  else
    emptyConfig

/-- C7: load_data returns the empty-initialized state when the document is
absent, and on any parse failure of an existing document returns the same
empty-initialized state instead of propagating the error. -/
theorem load_data_degrades_to_empty :
    (∀ parsed, load_data false parsed = emptyConfig) ∧
    (∀ e, load_data true (.error e) = emptyConfig) ∧
    emptyConfig.join_role_id = none ∧ emptyConfig.role_messages = [] :=
  ⟨fun _ => rfl, fun _ => rfl, rfl, rfl⟩

/-- `save_data`: final on-disk content of a completed
`DATA_FILE.write_text(json.dumps(d))` — the serialized document itself.
There is no temporary file and no rename step. -/
def save_data (doc : String) : String := doc

/-- A crash point during `save_data`. `write_text` opens the target file
for writing (truncating it) and then writes the new serialization in place. -/
inductive CrashPoint where
  | beforeOpen : CrashPoint
  | duringWrite : Nat → CrashPoint
deriving DecidableEq

/-- On-disk content when the process crashes during `save_data`: before the
truncating open the old document survives; a crash after `k` characters of
the single in-place write leaves the length-`k` prefix of the new document. -/
def save_data_crashed (oldDoc newDoc : String) : CrashPoint → String
  | .beforeOpen => oldDoc
  | .duringWrite k => String.mk (newDoc.data.take k)

/-- C3 counterexample: with old document "ab" and new document "xyz", a crash
after one written character leaves "x" on disk — neither the complete old
content nor the complete new content. -/
theorem save_data_not_atomic_counterexample :
    save_data_crashed "ab" "xyz" (.duringWrite 1) ≠ "ab" ∧
    save_data_crashed "ab" "xyz" (.duringWrite 1) ≠ "xyz" := by
  decide

/-- C3 amended: save_data overwrites the document in place with a single
write and no temp-then-rename step; a completed save leaves exactly the new
document, but a crash mid-write can leave a truncated prefix of the new
content (the only crash-safe state is a crash before the truncating open). -/
theorem save_data_overwrites_in_place (oldDoc newDoc : String) :
    save_data newDoc = newDoc ∧
    (∀ cp, save_data_crashed oldDoc newDoc cp = oldDoc ∨
      ∃ k, save_data_crashed oldDoc newDoc cp = String.mk (newDoc.data.take k)) ∧
    save_data_crashed oldDoc newDoc (.duringWrite newDoc.length) = newDoc := by
  refine ⟨rfl, fun cp => ?_, ?_⟩
  · cases cp with
    | beforeOpen => exact Or.inl rfl
    | duringWrite k => exact Or.inr ⟨k, rfl⟩
  · show String.mk (newDoc.data.take newDoc.length) = newDoc
    cases newDoc with
    | mk l => simp [String.length]

/-! ## Command surface mutations (lines 244-361) -/

/-- The keep-predicate of removerolemsg's list comprehension (line 355):
an entry survives unless both its guild_id matches the invoking guild and
its message_id matches the given message id. -/
def keepEntry (invoking_guild message_id : Nat) (it : MenuEntry) : Bool :=
  !(decide (it.guild_id = invoking_guild) && decide (it.message_id = message_id))

/-- `removerolemsg` handler (lines 351-361): filters the persisted entries,
saves, and reports found/not-found. The posted Discord messages
(`postedMessages`) are an input the handler never touches — the command
deletes only config entries, never messages. Returns the message store, the
new config, and the found flag (`true` when `before != after`). -/
def removerolemsg (postedMessages : List Nat) (cfg : Config)
    (invoking_guild message_id : Nat) : List Nat × Config × Bool :=
  let before := cfg.role_messages.length
  let remaining := cfg.role_messages.filter (keepEntry invoking_guild message_id)
  let after := remaining.length
  (postedMessages,
   { cfg with role_messages := remaining },
   !(before == after))

/-- C8: removerolemsg removes exactly the entries matching the invoking
guild and the given message id, keeps all other entries (in order), leaves
the join role and the posted messages untouched, and reports found exactly
when at least one entry matched. -/
theorem removerolemsg_correct (msgs : List Nat) (cfg : Config) (g m : Nat) :
    (removerolemsg msgs cfg g m).1 = msgs ∧
    (removerolemsg msgs cfg g m).2.1.role_messages =
      cfg.role_messages.filter (keepEntry g m) ∧
    (removerolemsg msgs cfg g m).2.1.join_role_id = cfg.join_role_id ∧
    (∀ it ∈ (removerolemsg msgs cfg g m).2.1.role_messages,
      it ∈ cfg.role_messages ∧ ¬(it.guild_id = g ∧ it.message_id = m)) ∧
    (∀ it ∈ cfg.role_messages, ¬(it.guild_id = g ∧ it.message_id = m) →
      it ∈ (removerolemsg msgs cfg g m).2.1.role_messages) ∧
    ((removerolemsg msgs cfg g m).2.2 = true ↔
      ∃ it ∈ cfg.role_messages, it.guild_id = g ∧ it.message_id = m) := by
  refine ⟨rfl, rfl, rfl, fun it hit => ?_, fun it hit hne => ?_, ?_⟩
  · rcases List.mem_filter.mp hit with ⟨hmem, hkeep⟩
    refine ⟨hmem, fun hboth => ?_⟩
    simp [keepEntry, hboth.1, hboth.2] at hkeep
  · exact List.mem_filter.mpr ⟨hit, by simp [keepEntry]; tauto⟩
  · show (!(cfg.role_messages.length ==
      (cfg.role_messages.filter (keepEntry g m)).length)) = true ↔ _
    rw [Bool.not_eq_true', beq_eq_false_iff_ne]
    constructor
    · intro hne
      by_contra hno
      push_neg at hno
      exact hne (List.filter_length_eq_length.mpr (fun a ha => by
        have hna := hno a ha
        simp [keepEntry]
        tauto)).symm
    · rintro ⟨it, hmem, hg, hm⟩ hlen
      have hall := List.filter_length_eq_length.mp hlen.symm it hmem
      simp [keepEntry, hg, hm] at hall

/-- The entry createrolemsg appends to `data["role_messages"]` (lines
320-327). -/
def createrolemsg_entry (g ch msg : Nat) (role_ids : List Nat)
    (uid : String) (title : String) : MenuEntry :=
  { guild_id := g, channel_id := ch, message_id := msg,
    role_ids := role_ids, uid := uid, title := title }

/-- createrolemsg's persistence step: append the new entry. -/
def createrolemsg_persist (cfg : Config) (e : MenuEntry) : Config :=
  { cfg with role_messages := cfg.role_messages ++ [e] }

/-- setjoinrole's persistence step (line 254). -/
def setjoinrole (cfg : Config) (role_id : Nat) : Config :=
  { cfg with join_role_id := some role_id }

/-- clearjoinrole's persistence step (line 262). -/
def clearjoinrole (cfg : Config) : Config :=
  { cfg with join_role_id := none }

/-- The document invariant of §3: no two menu entries share their
(guild_id, message_id) pair, and uids are unique across the document. -/
def menusInvariant (cfg : Config) : Prop :=
  cfg.role_messages.Pairwise (fun a b =>
    ¬(a.guild_id = b.guild_id ∧ a.message_id = b.message_id) ∧ a.uid ≠ b.uid)

/-- C9: every persisted-state mutation preserves the uniqueness invariant.
For createrolemsg the freshly posted message id and the fresh uuid4 hex are
new (the platform guarantees message-id freshness and uuid4 uniqueness),
stated as the two freshness hypotheses. -/
theorem mutations_preserve_invariant (cfg : Config) (e : MenuEntry)
    (rid g m : Nat) (msgs : List Nat)
    (hinv : menusInvariant cfg)
    (hfresh_msg : ∀ it ∈ cfg.role_messages,
      ¬(it.guild_id = e.guild_id ∧ it.message_id = e.message_id))
    (hfresh_uid : ∀ it ∈ cfg.role_messages, it.uid ≠ e.uid) :
    menusInvariant (createrolemsg_persist cfg e) ∧
    menusInvariant (removerolemsg msgs cfg g m).2.1 ∧
    menusInvariant (setjoinrole cfg rid) ∧
    menusInvariant (clearjoinrole cfg) := by
  refine ⟨?_, ?_, hinv, hinv⟩
  · rw [menusInvariant, createrolemsg_persist, List.pairwise_append]
    exact ⟨hinv, List.pairwise_singleton _ _,
      fun a ha b hb => by
        rw [List.mem_singleton] at hb
        subst hb
        exact ⟨hfresh_msg a ha, hfresh_uid a ha⟩⟩
  · exact List.Pairwise.sublist (List.filter_sublist _) hinv

/-- Witness for C9: the invariant holds for the empty document, the
freshness hypotheses hold vacuously, and all four mutations preserve it. -/
theorem mutations_preserve_invariant_witness :
    (menusInvariant emptyConfig ∧
     (∀ it ∈ emptyConfig.role_messages,
       ¬(it.guild_id = (createrolemsg_entry 1 2 3 [4] "u" "t").guild_id ∧
         it.message_id = (createrolemsg_entry 1 2 3 [4] "u" "t").message_id)) ∧
     (∀ it ∈ emptyConfig.role_messages,
       it.uid ≠ (createrolemsg_entry 1 2 3 [4] "u" "t").uid)) ∧
    (menusInvariant (createrolemsg_persist emptyConfig
        (createrolemsg_entry 1 2 3 [4] "u" "t")) ∧
     menusInvariant (removerolemsg [] emptyConfig 1 3).2.1 ∧
     menusInvariant (setjoinrole emptyConfig 7) ∧
     menusInvariant (clearjoinrole emptyConfig)) :=
  ⟨⟨List.Pairwise.nil, fun it hit => absurd hit (List.not_mem_nil it),
     fun it hit => absurd hit (List.not_mem_nil it)⟩,
   mutations_preserve_invariant emptyConfig (createrolemsg_entry 1 2 3 [4] "u" "t")
     7 1 3 [] List.Pairwise.nil
     (fun it hit => absurd hit (List.not_mem_nil it))
     (fun it hit => absurd hit (List.not_mem_nil it))⟩

/-! ## Restoration protocol (RoleClient.setup_hook, lines 56-80)

For each persisted entry: look up the guild in the cache, the channel in the
guild, fetch the message (awaited; a raised exception is caught by the
per-entry try/except), resolve each saved role id against the guild and drop
the unresolvable ones, skip if none remain, otherwise re-register the view
with the resolved subset. The loop never writes `data`. -/

/-- The external collaborators setup_hook consults. `fetchMessage` may fail
(`Except.error` models the raised exception caught by the per-entry
try/except). -/
structure Env where
  guildInCache : Nat → Bool
  channelInCache : Nat → Nat → Bool
  fetchMessage : Nat → Nat → Except String Nat
  getRole : Nat → Nat → Bool

/-- Terminal state of one entry's restoration. -/
inductive RestoreResult where
  | abandonedGuild : RestoreResult
  | abandonedChannel : RestoreResult
  | abandonedFetch : String → RestoreResult
  | abandonedNoRoles : RestoreResult
  | attached : List Nat → RestoreResult
deriving DecidableEq

/-- One iteration of setup_hook's restoration loop (lines 59-80). -/
def restoreOne (env : Env) (it : MenuEntry) : RestoreResult :=
  if !env.guildInCache it.guild_id then .abandonedGuild
  else if !env.channelInCache it.guild_id it.channel_id then .abandonedChannel
  else
    match env.fetchMessage it.channel_id it.message_id with
    | .error e => .abandonedFetch e
    | .ok _ =>
      let roles := it.role_ids.filter (fun rid => env.getRole it.guild_id rid)
      if roles.isEmpty then .abandonedNoRoles
      else .attached roles

/-- setup_hook's restoration loop over `data["role_messages"]`: accumulates
one result per entry; the persisted config is returned as the loop leaves
it (it is never written). -/
def setup_hook_restore (env : Env) (cfg : Config) :
    List RestoreResult × Config :=
  (cfg.role_messages.foldl (fun acc it => acc ++ [restoreOne env it]) [], cfg)

theorem foldl_append_singleton {α β : Type} (f : α → β) (l : List α)
    (acc : List β) :
    l.foldl (fun a x => a ++ [f x]) acc = acc ++ l.map f := by
  induction l generalizing acc with
  | nil => simp
  | cons x t ih => simp [ih]

/-- C6: restoration processes the persisted entries independently — the
result of entry `i` is `restoreOne` of that entry alone, so an Abandoned
(or error-raising) entry never changes any other entry's outcome — and the
loop never mutates the persisted config. -/
theorem restoration_per_entry_independent (env : Env) (cfg : Config) :
    (setup_hook_restore env cfg).2 = cfg ∧
    (setup_hook_restore env cfg).1 = cfg.role_messages.map (restoreOne env) ∧
    (∀ i : Nat, (setup_hook_restore env cfg).1[i]? =
      (cfg.role_messages[i]?).map (restoreOne env)) := by
  refine ⟨rfl, ?_, ?_⟩
  · show cfg.role_messages.foldl (fun a x => a ++ [restoreOne env x]) [] = _
    rw [foldl_append_singleton, List.nil_append]
  · intro i
    show (cfg.role_messages.foldl (fun a x => a ++ [restoreOne env x]) [])[i]? = _
    rw [foldl_append_singleton, List.nil_append, List.getElem?_map]

/-- C5: once guild, channel and message have resolved, restoration resolves
the saved role ids against the guild, silently discards the unresolvable
ones, attaches with the non-empty resolved subset, and abandons the entry
exactly when the resolved subset is empty. -/
theorem restore_resolves_current_roles (env : Env) (it : MenuEntry)
    (hg : env.guildInCache it.guild_id = true)
    (hc : env.channelInCache it.guild_id it.channel_id = true)
    (hm : ∃ msg, env.fetchMessage it.channel_id it.message_id = .ok msg) :
    (∀ rid, rid ∈ it.role_ids.filter (fun rid => env.getRole it.guild_id rid) ↔
      rid ∈ it.role_ids ∧ env.getRole it.guild_id rid = true) ∧
    (it.role_ids.filter (fun rid => env.getRole it.guild_id rid) ≠ [] →
      restoreOne env it =
        .attached (it.role_ids.filter (fun rid => env.getRole it.guild_id rid))) ∧
    (restoreOne env it = .abandonedNoRoles ↔
      it.role_ids.filter (fun rid => env.getRole it.guild_id rid) = []) := by
  obtain ⟨msg, hmsg⟩ := hm
  have hrw : restoreOne env it =
      (if (it.role_ids.filter (fun rid => env.getRole it.guild_id rid)).isEmpty
        then .abandonedNoRoles
        else .attached (it.role_ids.filter (fun rid => env.getRole it.guild_id rid))) := by
    rw [restoreOne, hg, hc, hmsg]
    simp
  refine ⟨fun rid => List.mem_filter, fun hne => ?_, ?_⟩
  · rw [hrw, if_neg (by simpa [List.isEmpty_iff] using hne)]
  · rw [hrw]
    by_cases he : it.role_ids.filter (fun rid => env.getRole it.guild_id rid) = []
    · simp [he]
    · rw [if_neg (by simpa [List.isEmpty_iff] using he)]
      simp [he]

/-- Witness for C5 on the spec's scenario: candidates {4, 5} with role 4
deleted from the guild; restoration attaches with the resolved subset {5}. -/
theorem restore_resolves_current_roles_witness :
    (Env.mk (fun g => g == 1) (fun g ch => g == 1 && ch == 2)
        (fun _ msg => .ok msg) (fun g rid => g == 1 && rid == 5)).guildInCache
      (createrolemsg_entry 1 2 3 [4, 5] "u" "t").guild_id = true ∧
    (Env.mk (fun g => g == 1) (fun g ch => g == 1 && ch == 2)
        (fun _ msg => .ok msg) (fun g rid => g == 1 && rid == 5)).channelInCache
      (createrolemsg_entry 1 2 3 [4, 5] "u" "t").guild_id
      (createrolemsg_entry 1 2 3 [4, 5] "u" "t").channel_id = true ∧
    (∃ msg, (Env.mk (fun g => g == 1) (fun g ch => g == 1 && ch == 2)
        (fun _ msg => .ok msg) (fun g rid => g == 1 && rid == 5)).fetchMessage
      (createrolemsg_entry 1 2 3 [4, 5] "u" "t").channel_id
      (createrolemsg_entry 1 2 3 [4, 5] "u" "t").message_id = .ok msg) ∧
    restoreOne
      (Env.mk (fun g => g == 1) (fun g ch => g == 1 && ch == 2)
        (fun _ msg => .ok msg) (fun g rid => g == 1 && rid == 5))
      (createrolemsg_entry 1 2 3 [4, 5] "u" "t") = .attached [5] :=
  ⟨rfl, rfl, ⟨3, rfl⟩,
    ((restore_resolves_current_roles
      (Env.mk (fun g => g == 1) (fun g ch => g == 1 && ch == 2)
        (fun _ msg => .ok msg) (fun g rid => g == 1 && rid == 5))
      (createrolemsg_entry 1 2 3 [4, 5] "u" "t")
      rfl rfl ⟨3, rfl⟩).2.1 (by decide)).trans (by rfl)⟩

/-! ## Selection handling (RoleSelect.callback, lines 152-198)

The select options carry the decimal role id as their value, or the
placeholder value "0" when the menu was built with no available roles.
Line 163 resolves roles from the option values, skipping "0" and dropping
roles the guild no longer has; lines 170-176 re-validate assignability for
every resolved role and return on the first failure; lines 178-190 compute
the delta and apply it. -/

/-- Python `str.isdigit()` for the decimal strings handled here: non-empty
and all digits. -/
def isdigit (s : String) : Bool := !s.data.isEmpty && s.data.all Char.isDigit

/-- Python `int(v)` on the decimal strings handled here (option values are
generated by the code as decimal role ids or "0"). -/
def strToNat (s : String) : Nat :=
  s.data.foldl (fun n c => n * 10 + (c.toNat - 48)) 0

/-- Line 163: `[guild.get_role(int(opt.value)) for opt in self.options if
opt.value != "0"]`, then dropping the `None`s. `getRole rid = true` means
the guild still has role `rid`. -/
def resolveOptionRoles (getRole : Nat → Bool) (optionValues : List String) :
    List Nat :=
  (optionValues.filter (fun v => v != "0")).filterMap
    (fun v => if getRole (strToNat v) then some (strToNat v) else none)

/-- Line 178: `set(int(v) for v in self.values if v.isdigit())`. -/
def selected_ids (values : List String) : List Nat :=
  (values.filter isdigit).map strToNat

/-- Outcome of `RoleSelect.callback` after the ephemeral defer. -/
inductive CallbackResult where
  | noRoles : CallbackResult
  | abortedUnassignable : Nat → CallbackResult
  | applied : List Nat → List Nat → List Nat → CallbackResult
deriving DecidableEq

/-- `RoleSelect.callback` for an in-guild interaction: resolve the option
roles; answer "roles not found" when none resolve; re-validate every
resolved role and return on the first unassignable one (applying nothing);
otherwise compute and apply the delta. `applied add rem final` carries
`to_add`, `to_remove` and the member's resulting roles. -/
def callback (getRole assignable : Nat → Bool) (optionValues values : List String)
    (current : List Nat) : CallbackResult :=
  let roles := resolveOptionRoles getRole optionValues
  if roles.isEmpty then .noRoles
  else
    match roles.find? (fun r => !assignable r) with
    | some r => .abortedUnassignable r
    | none =>
      let sel := selected_ids values
      let add := to_add roles current sel
      let rem := to_remove roles current sel
      .applied add rem (applyChanges current add rem)

/-- C2 counterexample: menu roles {1, 2}, role 1 unassignable, role 2
assignable, member holds nothing and selects role 2. The claim says role 2's
grant is still applied; the code aborts on role 1 and applies nothing — the
outcome is never an `applied` result. -/
theorem callback_abort_counterexample :
    callback (fun _ => true) (fun r => decide (r = 2)) ["1", "2"] ["2"] [] =
      .abortedUnassignable 1 ∧
    ∀ add rem final,
      callback (fun _ => true) (fun r => decide (r = 2)) ["1", "2"] ["2"] [] ≠
        .applied add rem final := by
  refine ⟨by decide, fun add rem final h => ?_⟩
  rw [show callback (fun _ => true) (fun r => decide (r = 2)) ["1", "2"] ["2"] []
    = .abortedUnassignable 1 by decide] at h
  exact absurd h (by simp)

/-- C2 amended: when the assignability re-validation fails for any resolved
role of the menu, the whole selection is aborted at the first failing role
— no grant or revoke is applied, not even for roles that validate
successfully; the reported role is a resolved candidate that fails the
check. -/
theorem callback_unassignable_aborts_batch (getRole assignable : Nat → Bool)
    (optionValues values : List String) (current : List Nat) (r : Nat)
    (hfind : (resolveOptionRoles getRole optionValues).find?
      (fun x => !assignable x) = some r) :
    callback getRole assignable optionValues values current =
      .abortedUnassignable r ∧
    r ∈ resolveOptionRoles getRole optionValues ∧
    assignable r = false := by
  have hmem : r ∈ resolveOptionRoles getRole optionValues :=
    List.mem_of_find?_eq_some hfind
  have hne : (resolveOptionRoles getRole optionValues).isEmpty = false := by
    have hn : resolveOptionRoles getRole optionValues ≠ [] := by
      intro h0
      rw [h0] at hmem
      exact absurd hmem (List.not_mem_nil r)
    simpa [List.isEmpty_iff] using hn
  have hfail : assignable r = false := by
    have := List.find?_some hfind
    simpa using this
  refine ⟨?_, hmem, hfail⟩
  rw [callback]
  simp only [hne, Bool.false_eq_true, if_false, hfind]

/-- Witness for the amended C2 on the counterexample's input. -/
theorem callback_unassignable_aborts_batch_witness :
    (resolveOptionRoles (fun _ => true) ["1", "2"]).find?
      (fun x => !decide (x = 2)) = some 1 ∧
    (callback (fun _ => true) (fun r => decide (r = 2)) ["1", "2"] ["2"] [] =
      .abortedUnassignable 1 ∧
    1 ∈ resolveOptionRoles (fun _ => true) ["1", "2"] ∧
    decide ((1 : Nat) = 2) = false) :=
  ⟨by decide, callback_unassignable_aborts_batch (fun _ => true)
    (fun r => decide (r = 2)) ["1", "2"] ["2"] [] 1 (by decide)⟩

/-- C10: whatever the user submits, the handler only ever grants or revokes
roles from the menu's resolved candidate list: `to_add` and `to_remove` are
subsets of the resolved candidates, a non-digit selected value never
contributes to `selected_ids`, the placeholder value "0" never resolves to
a role, and every resolved candidate is a role the guild still has. -/
theorem callback_confined_to_candidates (getRole : Nat → Bool)
    (optionValues values : List String) (current : List Nat) :
    (∀ x ∈ to_add (resolveOptionRoles getRole optionValues) current
        (selected_ids values), x ∈ resolveOptionRoles getRole optionValues) ∧
    (∀ x ∈ to_remove (resolveOptionRoles getRole optionValues) current
        (selected_ids values), x ∈ resolveOptionRoles getRole optionValues) ∧
    (∀ v, isdigit v = false → selected_ids (v :: values) = selected_ids values) ∧
    (∀ vs, resolveOptionRoles getRole ("0" :: vs) =
      resolveOptionRoles getRole vs) ∧
    (∀ x ∈ resolveOptionRoles getRole optionValues, getRole x = true) := by
  refine ⟨fun x hx => (List.mem_filter.mp hx).1,
    fun x hx => (List.mem_filter.mp hx).1,
    fun v hv => ?_, fun vs => ?_, fun x hx => ?_⟩
  · rw [selected_ids, selected_ids, List.filter_cons_of_neg (by simp [hv])]
  · rw [resolveOptionRoles, resolveOptionRoles,
      List.filter_cons_of_neg (by simp)]
  · rcases List.mem_filterMap.mp hx with ⟨v, hv, hres⟩
    by_cases hg : getRole (strToNat v)
    · rw [if_pos hg, Option.some.injEq] at hres
      rw [← hres]
      exact hg
    · rw [if_neg hg] at hres
      exact absurd hres (by simp)

end RoleBot
